import Mathlib

/-!
Shallow embedding of `src/ms_api.py` (class `MSInterface`): a MySQL
connection manager with bounded connect retries, a latched
`connection_error` flag, lazy cursor creation, query execution with
row stringification, and disconnect.

The external mysql driver is modelled as a bundle of oracles
(`Driver`).  Each manager operation returns the new manager state
together with the list of driver calls it performed (`DEvent`), and —
where the Python code can call `sys.exit` or let an exception escape —
a `PyOutcome` describing normal return, process exit, or an uncaught
Python exception.
-/

/-- The class constant `MSInterface.MAX_CONNECTION_RETRIES = 5`. -/
def MAX_CONNECTION_RETRIES : Nat := 5

/-- A scalar value in a result row, as handed back by the driver's
`fetchall`.  `vRepr` carries the Python `str()` rendering of any other
scalar kind (floats, dates, ...) as data, keeping the embedding free of
floating point while still covering heterogeneous rows. -/
inductive PyValue where
  | vInt : Int → PyValue
  | vStr : String → PyValue
  | vNone : PyValue
  | vRepr : String → PyValue
deriving DecidableEq

/-- Python `str()` applied to one scalar, as used in
`tuple([str(x) for x in y])` on line 73 of the source. -/
def pyStr : PyValue → String
  | PyValue.vInt i => toString i
  | PyValue.vStr s => s
  | PyValue.vNone => "None"
  | PyValue.vRepr r => r

/-- Driver oracles for one call into the manager:
`openC n` is the outcome of the open attempt with `retry_count = n`
(`none` = recoverable `mysql.connector.Error`/`InterfaceError`,
`some h` = success returning connection handle `h`);
`cursorC h` is the outcome of `Connection.cursor()` on handle `h`
(`none` = `Error` raised, line 93 of the source);
`queryC q` is the combined outcome of `Cursor.execute q` followed by
`Cursor.fetchall()` (`none` = recoverable `Error` raised). -/
structure Driver where
  openC : Nat → Option Nat
  cursorC : Nat → Option Nat
  queryC : String → Option (List (List PyValue))

/-- One driver call, recorded in the I/O trace of an operation. -/
inductive DEvent where
  | dOpen : Nat → DEvent
  | dCursor : Nat → DEvent
  | dExec : String → DEvent
  | dFetch : DEvent
  | dClose : Nat → DEvent
deriving DecidableEq

/-- Outcome of a Python call: normal return of a value, process
termination via `sys.exit code` (an argumentless `sys.exit()` is exit
status 0), or an uncaught Python exception (named by its class). -/
inductive PyOutcome (α : Type) where
  | ok : α → PyOutcome α
  | exitCode : Nat → PyOutcome α
  | raised : String → PyOutcome α
deriving DecidableEq

/-- Mutable state of an `MSInterface` object: the stored connection
handle `self.connection` (`none` = Python `None`), the stored cursor
handle `self.cursor`, the latched flag `self.connection_error`, and
whether the driver's close has been invoked on the stored connection
(tracking "the handle is closed"; the Python attribute itself is the
driver object, which `disconnect` mutates but never clears). -/
structure MSInterface where
  connection : Option Nat
  cursor : Option Nat
  connection_error : Bool
  connClosed : Bool
deriving DecidableEq

/-- The `while True` retry loop of `MSInterface.connect`
(source lines 117-142), entered with `retry_count = retry`.  Returns
the connection handle (if an attempt succeeded), whether
`connection_error` was set by the `TimeoutError` branch, and the trace
of open attempts.  `fuel` bounds the recursion; `MSInterface.connect`
supplies `MAX_CONNECTION_RETRIES`, which is proved sufficient below. -/
def connectLoop (d : Driver) : Nat → Nat → Option Nat × Bool × List DEvent
  | _, 0 => (none, false, [])
  | retry, fuel + 1 =>
    if retry = MAX_CONNECTION_RETRIES then
      (none, true, [])
    else
      match d.openC retry with
      | some h => (some h, false, [DEvent.dOpen retry])
      | none =>
        let r := connectLoop d (retry + 1) fuel
        (r.1, r.2.1, DEvent.dOpen retry :: r.2.2)

/-- `MSInterface.connect` (source lines 113-142): if `self.connection`
is falsy, run the retry loop starting from `retry_count = 1`; a
successful attempt stores the fresh (open) connection, an exhausted
retry loop latches `connection_error = True`.  The method itself never
raises (`TimeoutError` and driver errors are all caught) and never
resets `connection_error` to `False`. -/
def MSInterface.connect (d : Driver) (s : MSInterface) : MSInterface × List DEvent :=
  match s.connection with
  | some _ => (s, [])
  | none =>
    let r := connectLoop d 1 MAX_CONNECTION_RETRIES
    ({ s with connection := r.1,
              connection_error := s.connection_error || r.2.1,
              connClosed := false }, r.2.2)

/-- `MSInterface.verify_connection` (source lines 97-102): if
`connection_error` is latched, `sys.exit(1)`; otherwise connect when no
connection is stored. -/
def MSInterface.verify_connection (d : Driver) (s : MSInterface) :
    PyOutcome Unit × MSInterface × List DEvent :=
  if s.connection_error then
    (PyOutcome.exitCode 1, s, [])
  else
    match s.connection with
    | none =>
      let r := MSInterface.connect d s
      (PyOutcome.ok (), r.1, r.2)
    | some _ => (PyOutcome.ok (), s, [])

/-- `MSInterface.verify_cursor` (source lines 88-95): lazily create the
cursor from `self.connection`.  If `self.connection` is `None`,
`None.cursor()` raises `AttributeError`, which the `except Error`
clause does not catch, so it escapes to the caller.  If the driver's
`cursor()` raises `Error`, the handler calls the argumentless
`sys.exit()` (exit status 0). -/
def MSInterface.verify_cursor (d : Driver) (s : MSInterface) :
    PyOutcome Unit × MSInterface × List DEvent :=
  match s.cursor with
  | some _ => (PyOutcome.ok (), s, [])
  | none =>
    match s.connection with
    | none => (PyOutcome.raised "AttributeError", s, [])
    | some h =>
      match d.cursorC h with
      | some cu => (PyOutcome.ok (), { s with cursor := some cu }, [DEvent.dCursor h])
      | none => (PyOutcome.exitCode 0, s, [DEvent.dCursor h])

/-- `MSInterface.execute_query` (source lines 67-86): verify the
connection, verify the cursor, then execute and fetch.  On success the
rows are stringified elementwise; an empty fetch returns `[]` (which
coincides with the stringified empty row list).  When execute/fetch
raises a recoverable `Error`, the `except` branch only logs — it has no
`return` statement — so the Python function returns `None`, modelled as
the payload `Option.none`; a successful call returns `some rows`. -/
def MSInterface.execute_query (d : Driver) (s : MSInterface) (query : String) :
    PyOutcome (Option (List (List String))) × MSInterface × List DEvent :=
  match MSInterface.verify_connection d s with
  | (PyOutcome.ok _, s1, t1) =>
    match MSInterface.verify_cursor d s1 with
    | (PyOutcome.ok _, s2, t2) =>
      match d.queryC query with
      | some rows =>
        (PyOutcome.ok (some (rows.map (fun row => row.map pyStr))), s2,
          t1 ++ t2 ++ [DEvent.dExec query, DEvent.dFetch])
      | none =>
        (PyOutcome.ok none, s2, t1 ++ t2 ++ [DEvent.dExec query])
    | (PyOutcome.exitCode c, s2, t2) => (PyOutcome.exitCode c, s2, t1 ++ t2)
    | (PyOutcome.raised e, s2, t2) => (PyOutcome.raised e, s2, t1 ++ t2)
  | (PyOutcome.exitCode c, s1, t1) => (PyOutcome.exitCode c, s1, t1)
  | (PyOutcome.raised e, s1, t1) => (PyOutcome.raised e, s1, t1)

/-- `MSInterface.disconnect` (source lines 104-111): if a connection
handle is stored (truthy even after being closed), call the driver's
`disconnect` on it; any `Error` raised by the driver is swallowed and
logged, so the method never raises and never clears `self.connection`. -/
def MSInterface.disconnect (s : MSInterface) : MSInterface × List DEvent :=
  match s.connection with
  | none => (s, [])
  | some h => ({ s with connClosed := true }, [DEvent.dClose h])

/-- `MSInterface.__exit__` (source lines 64-65): scoped exit just calls
`disconnect`. -/
def MSInterface.scope_exit (s : MSInterface) : MSInterface × List DEvent :=
  MSInterface.disconnect s

/-- The attribute state set up by `__init__` before it calls
`self.connect()` (source lines 52-54). -/
def MSInterface.startState : MSInterface :=
  { connection := none, cursor := none, connection_error := false, connClosed := false }

/-- `MSInterface.__init__` (source lines 40-56): set up the attributes,
then immediately `self.connect()`.  Construction always returns an
instance; a failed connect is recorded only in `connection_error`. -/
def MSInterface.construct (d : Driver) : MSInterface × List DEvent :=
  MSInterface.connect d MSInterface.startState

/-- States of the manager reachable from construction by any sequence
of calls to its public operations, each call with an arbitrary driver
behaviour.  A step whose outcome is `sys.exit` still names the state
the object held at the exit point (the object is simply never used
again); a raised exception leaves the object alive with the mutations
made before the raise. -/
inductive Reachable : MSInterface → Prop where
  | construct (d : Driver) : Reachable (MSInterface.construct d).1
  | connectStep (d : Driver) {s : MSInterface} :
      Reachable s → Reachable (MSInterface.connect d s).1
  | verifyConnStep (d : Driver) {s : MSInterface} :
      Reachable s → Reachable (MSInterface.verify_connection d s).2.1
  | verifyCursorStep (d : Driver) {s : MSInterface} :
      Reachable s → Reachable (MSInterface.verify_cursor d s).2.1
  | executeStep (d : Driver) (q : String) {s : MSInterface} :
      Reachable s → Reachable (MSInterface.execute_query d s q).2.1
  | disconnectStep {s : MSInterface} :
      Reachable s → Reachable (MSInterface.disconnect s).1
  | scopeExitStep {s : MSInterface} :
      Reachable s → Reachable (MSInterface.scope_exit s).1

/-- Like `Reachable`, but without direct calls to `connect` after
construction: `connect` runs only inside `__init__` and
`verify_connection` (the paths that check again before dialing). -/
inductive ReachableNC : MSInterface → Prop where
  | construct (d : Driver) : ReachableNC (MSInterface.construct d).1
  | verifyConnStep (d : Driver) {s : MSInterface} :
      ReachableNC s → ReachableNC (MSInterface.verify_connection d s).2.1
  | verifyCursorStep (d : Driver) {s : MSInterface} :
      ReachableNC s → ReachableNC (MSInterface.verify_cursor d s).2.1
  | executeStep (d : Driver) (q : String) {s : MSInterface} :
      ReachableNC s → ReachableNC (MSInterface.execute_query d s q).2.1
  | disconnectStep {s : MSInterface} :
      ReachableNC s → ReachableNC (MSInterface.disconnect s).1
  | scopeExitStep {s : MSInterface} :
      ReachableNC s → ReachableNC (MSInterface.scope_exit s).1

/-- A driver stub whose every open attempt fails recoverably, whose
cursor creation succeeds, and whose queries return no rows. -/
def dFail : Driver :=
  { openC := fun _ => none
  , cursorC := fun h => some (h + 100)
  , queryC := fun _ => some [] }

/-- A driver stub whose every open attempt succeeds with handle 7. -/
def dOk : Driver :=
  { openC := fun _ => some 7
  , cursorC := fun h => some (h + 100)
  , queryC := fun _ => some [] }

/-- A driver stub whose open attempts 1..1 fail and whose attempt 2
succeeds with handle 9. -/
def dSecond : Driver :=
  { openC := fun n => if n = 2 then some 9 else none
  , cursorC := fun h => some (h + 100)
  , queryC := fun _ => some [] }

theorem connectLoop_allFail (d : Driver) (hfail : ∀ n, d.openC n = none) :
    ∀ m retry fuel, retry + m = MAX_CONNECTION_RETRIES → m < fuel →
      (connectLoop d retry fuel).1 = none ∧
      (connectLoop d retry fuel).2.1 = true ∧
      (connectLoop d retry fuel).2.2.length = m := by
  intro m
  induction m with
  | zero =>
    intro retry fuel hsum hfuel
    cases fuel with
    | zero => omega
    | succ f =>
      have hr : retry = MAX_CONNECTION_RETRIES := by omega
      subst hr
      simp [connectLoop]
  | succ m ih =>
    intro retry fuel hsum hfuel
    cases fuel with
    | zero => omega
    | succ f =>
      have hne : retry ≠ MAX_CONNECTION_RETRIES := by omega
      have h2 := ih (retry + 1) f (by omega) (by omega)
      simp only [connectLoop, if_neg hne, hfail retry]
      exact ⟨h2.1, h2.2.1, by simp [h2.2.2]⟩

theorem connectLoop_success (d : Driver) (hh : Nat) :
    ∀ k retry fuel, retry + k < MAX_CONNECTION_RETRIES → k < fuel →
      (∀ i, retry ≤ i → i < retry + k → d.openC i = none) →
      d.openC (retry + k) = some hh →
      (connectLoop d retry fuel).1 = some hh ∧
      (connectLoop d retry fuel).2.1 = false ∧
      (connectLoop d retry fuel).2.2.length = k + 1 := by
  intro k
  induction k with
  | zero =>
    intro retry fuel hlt hfuel hfails hsucc
    cases fuel with
    | zero => omega
    | succ f =>
      have hne : retry ≠ MAX_CONNECTION_RETRIES := by omega
      simp only [Nat.add_zero] at hsucc
      simp [connectLoop, if_neg hne, hsucc]
  | succ k ih =>
    intro retry fuel hlt hfuel hfails hsucc
    cases fuel with
    | zero => omega
    | succ f =>
      have hne : retry ≠ MAX_CONNECTION_RETRIES := by omega
      have hfirst : d.openC retry = none := hfails retry (le_refl retry) (by omega)
      have hshift : retry + 1 + k = retry + (k + 1) := by omega
      have h2 := ih (retry + 1) f (by omega) (by omega)
        (fun i hi1 hi2 => hfails i (by omega) (by omega))
        (by rw [hshift]; exact hsucc)
      simp only [connectLoop, if_neg hne, hfirst]
      exact ⟨h2.1, h2.2.1, by simp [h2.2.2]⟩

theorem connectLoop_fuelIrrel (d : Driver) :
    ∀ m retry fuel fuel', retry + m = MAX_CONNECTION_RETRIES →
      m < fuel → m < fuel' →
      connectLoop d retry fuel = connectLoop d retry fuel' := by
  intro m
  induction m with
  | zero =>
    intro retry fuel fuel' hsum hf hf'
    cases fuel with
    | zero => omega
    | succ f =>
      cases fuel' with
      | zero => omega
      | succ g =>
        have hr : retry = MAX_CONNECTION_RETRIES := by omega
        subst hr
        simp [connectLoop]
  | succ m ih =>
    intro retry fuel fuel' hsum hf hf'
    cases fuel with
    | zero => omega
    | succ f =>
      cases fuel' with
      | zero => omega
      | succ g =>
        have hne : retry ≠ MAX_CONNECTION_RETRIES := by omega
        have heq := ih (retry + 1) f g (by omega) (by omega) (by omega)
        simp only [connectLoop, if_neg hne]
        cases hop : d.openC retry with
        | some h => rfl
        | none => simp [heq]

theorem connectLoop_len (d : Driver) :
    ∀ m retry fuel, retry + m = MAX_CONNECTION_RETRIES →
      (connectLoop d retry fuel).2.2.length ≤ m := by
  intro m
  induction m with
  | zero =>
    intro retry fuel hsum
    cases fuel with
    | zero => simp [connectLoop]
    | succ f =>
      have hr : retry = MAX_CONNECTION_RETRIES := by omega
      subst hr
      simp [connectLoop]
  | succ m ih =>
    intro retry fuel hsum
    cases fuel with
    | zero => simp [connectLoop]
    | succ f =>
      have hne : retry ≠ MAX_CONNECTION_RETRIES := by omega
      have h2 := ih (retry + 1) f (by omega)
      simp only [connectLoop, if_neg hne]
      cases hop : d.openC retry with
      | some h => simp
      | none => simp [Nat.succ_le_succ h2]

/-- Claim C1: for a driver that reports a recoverable connection error
on every open attempt, `connect` on a manager holding no connection
performs exactly `MAX_CONNECTION_RETRIES - 1` (= 4) open attempts,
latches `connection_error = true`, stores no connection, and returns
normally (the modelled `connect` is total: the `TimeoutError` that ends
the loop is caught inside the method and never reaches the caller). -/
theorem c1_retry_bound (d : Driver) (s : MSInterface)
    (hfail : ∀ n, d.openC n = none) (hconn : s.connection = none) :
    (MSInterface.connect d s).2.length = MAX_CONNECTION_RETRIES - 1 ∧
    (MSInterface.connect d s).1.connection_error = true ∧
    (MSInterface.connect d s).1.connection = none := by
  have h := connectLoop_allFail d hfail 4 1 MAX_CONNECTION_RETRIES (by decide) (by decide)
  simp only [MSInterface.connect, hconn]
  exact ⟨h.2.2, by rw [h.2.1]; exact Bool.or_true _, h.1⟩

theorem c1_retry_bound_witness :
    (MSInterface.connect dFail MSInterface.startState).2.length = MAX_CONNECTION_RETRIES - 1 ∧
    (MSInterface.connect dFail MSInterface.startState).1.connection_error = true ∧
    (MSInterface.connect dFail MSInterface.startState).1.connection = none :=
  c1_retry_bound dFail MSInterface.startState (fun _ => rfl) rfl

/-- Claim C7: for a driver that succeeds on open attempt `N` with
`N ≤ MAX_CONNECTION_RETRIES - 1` and fails recoverably on every earlier
attempt, `connect` on a fresh (unconnected, unlatched) manager performs
exactly `N` open attempts and afterwards the manager holds a live
connection and `connection_error = false`. -/
theorem c7_success_path (d : Driver) (s : MSInterface) (N hh : Nat)
    (hN1 : 1 ≤ N) (hN2 : N ≤ MAX_CONNECTION_RETRIES - 1)
    (hfail : ∀ i, 1 ≤ i → i < N → d.openC i = none)
    (hsucc : d.openC N = some hh)
    (hconn : s.connection = none) (herr : s.connection_error = false) :
    (MSInterface.connect d s).2.length = N ∧
    (MSInterface.connect d s).1.connection = some hh ∧
    (MSInterface.connect d s).1.connection_error = false := by
  have hN : 1 + (N - 1) = N := by omega
  have h := connectLoop_success d hh (N - 1) 1 MAX_CONNECTION_RETRIES
    (by omega) (by omega)
    (fun i hi1 hi2 => hfail i hi1 (by omega))
    (by rw [hN]; exact hsucc)
  simp only [MSInterface.connect, hconn]
  refine ⟨by rw [h.2.2]; omega, h.1, ?_⟩
  rw [h.2.1, herr]
  rfl

theorem c7_success_path_witness :
    (MSInterface.connect dSecond MSInterface.startState).2.length = 2 ∧
    (MSInterface.connect dSecond MSInterface.startState).1.connection = some 9 ∧
    (MSInterface.connect dSecond MSInterface.startState).1.connection_error = false :=
  c7_success_path dSecond MSInterface.startState 2 9 (by decide) (by decide)
    (fun i hi1 hi2 => by
      have hi : i = 1 := by omega
      subst hi
      rfl)
    rfl rfl rfl

/-- Claim C10: the retry loop of `connect` always terminates, with at
most `MAX_CONNECTION_RETRIES - 1` open attempts, whatever (possibly
infinite) sequence of recoverable open errors and successes the driver
produces: any fuel of at least `MAX_CONNECTION_RETRIES` gives the same
result as the fuel `connect` uses (the loop exits on success or on the
counter reaching the maximum before fuel can matter), and the number of
open attempts `connect` performs is at most `MAX_CONNECTION_RETRIES - 1`. -/
theorem c10_loop_terminates (d : Driver) (s : MSInterface) (fuel : Nat)
    (hfuel : MAX_CONNECTION_RETRIES ≤ fuel) :
    connectLoop d 1 fuel = connectLoop d 1 MAX_CONNECTION_RETRIES ∧
    (MSInterface.connect d s).2.length ≤ MAX_CONNECTION_RETRIES - 1 := by
  constructor
  · have h5 : 5 ≤ fuel := hfuel
    exact connectLoop_fuelIrrel d 4 1 fuel MAX_CONNECTION_RETRIES (by decide) (by omega) (by decide)
  · cases hc : s.connection with
    | some h => simp [MSInterface.connect, hc]
    | none =>
      have h := connectLoop_len d 4 1 MAX_CONNECTION_RETRIES (by decide)
      simp only [MSInterface.connect, hc]
      exact h

theorem c10_loop_terminates_witness :
    connectLoop dFail 1 7 = connectLoop dFail 1 MAX_CONNECTION_RETRIES ∧
    (MSInterface.connect dFail MSInterface.startState).2.length ≤ MAX_CONNECTION_RETRIES - 1 :=
  c10_loop_terminates dFail MSInterface.startState 7 (by decide)

theorem latched_exit (d : Driver) (s : MSInterface) (q : String)
    (herr : s.connection_error = true) :
    MSInterface.verify_connection d s = (PyOutcome.exitCode 1, s, []) ∧
    MSInterface.execute_query d s q = (PyOutcome.exitCode 1, s, []) := by
  have h1 : MSInterface.verify_connection d s = (PyOutcome.exitCode 1, s, []) := by
    simp [MSInterface.verify_connection, herr]
  refine ⟨h1, ?_⟩
  simp [MSInterface.execute_query, h1]

/-- Claim C5: whenever `connection_error` is latched, `verify_connection`
— called directly or as the first step of `execute_query` — terminates
the process via `sys.exit(1)` (exit status 1, non-zero), leaving the
state untouched and performing no driver call at all (no open, cursor,
execute, or fetch). -/
theorem c5_latched_fatal (d : Driver) (s : MSInterface) (q : String)
    (herr : s.connection_error = true) :
    MSInterface.verify_connection d s = (PyOutcome.exitCode 1, s, []) ∧
    MSInterface.execute_query d s q = (PyOutcome.exitCode 1, s, []) :=
  latched_exit d s q herr

theorem c5_latched_fatal_witness :
    MSInterface.verify_connection dOk (MSInterface.construct dFail).1 =
      (PyOutcome.exitCode 1, (MSInterface.construct dFail).1, []) ∧
    MSInterface.execute_query dOk (MSInterface.construct dFail).1 "SELECT 1" =
      (PyOutcome.exitCode 1, (MSInterface.construct dFail).1, []) :=
  c5_latched_fatal dOk (MSInterface.construct dFail).1 "SELECT 1" rfl

/-- A driver stub whose execute+fetch returns the spec's example rows
`[(1, "abc", None), (2, "xyz", 3.5)]`. -/
def dRows : Driver :=
  { openC := fun _ => some 7
  , cursorC := fun h => some (h + 100)
  , queryC := fun _ => some
      [[PyValue.vInt 1, PyValue.vStr "abc", PyValue.vNone],
       [PyValue.vInt 2, PyValue.vStr "xyz", PyValue.vRepr "3.5"]] }

/-- A driver stub whose execute raises a recoverable `Error` on every
query. -/
def dExecErr : Driver :=
  { openC := fun _ => some 7
  , cursorC := fun h => some (h + 100)
  , queryC := fun _ => none }

/-- A connected manager state: connection handle 7, cursor handle 107,
flag unlatched. -/
def sConn : MSInterface :=
  { connection := some 7, cursor := some 107
  , connection_error := false, connClosed := false }

/-- Claim C6: on a manager with an unlatched flag, a stored connection
and a stored cursor, when the driver's execute+fetch returns `rows`,
`execute_query` returns exactly those rows in the same order with every
value replaced by its Python `str()` representation. -/
theorem c6_row_normalization (d : Driver) (s : MSInterface) (q : String)
    (rows : List (List PyValue)) (ch cu : Nat)
    (herr : s.connection_error = false) (hconn : s.connection = some ch)
    (hcur : s.cursor = some cu) (hq : d.queryC q = some rows) :
    (MSInterface.execute_query d s q).1 =
      PyOutcome.ok (some (rows.map (fun row => row.map pyStr))) := by
  simp [MSInterface.execute_query, MSInterface.verify_connection,
        MSInterface.verify_cursor, herr, hconn, hcur, hq]

theorem c6_row_normalization_witness :
    (MSInterface.execute_query dRows sConn "SELECT a, b, c FROM t").1 =
      PyOutcome.ok (some [["1", "abc", "None"], ["2", "xyz", "3.5"]]) :=
  c6_row_normalization dRows sConn "SELECT a, b, c FROM t"
    [[PyValue.vInt 1, PyValue.vStr "abc", PyValue.vNone],
     [PyValue.vInt 2, PyValue.vStr "xyz", PyValue.vRepr "3.5"]]
    7 107 rfl rfl rfl rfl

/-- Claim C2 is a code bug: on a connected manager, when the driver's
execute raises a recoverable `Error`, control falls into the
`except Error` branch of `execute_query` (source lines 85-86), which
only logs and has no `return` statement, so the Python function returns
`None` — not the empty list `[]` the spec promises and the `-> list`
annotation requires.  When execute succeeds and fetch yields zero rows
the function does return `[]`.  The two return values differ. -/
theorem c2_error_returns_pynone :
    (MSInterface.execute_query dExecErr sConn "SELECT 1").1 =
      PyOutcome.ok (none : Option (List (List String))) ∧
    (MSInterface.execute_query dOk sConn "SELECT 1").1 =
      PyOutcome.ok (some ([] : List (List String))) ∧
    PyOutcome.ok (none : Option (List (List String))) ≠ PyOutcome.ok (some []) :=
  ⟨rfl, rfl, by decide⟩

/-- Claim C8 counterexample: after a first `disconnect` the connection
handle is still stored (the attribute is never cleared), so a second
`disconnect` performs another driver close call — its trace is
`[dClose 7]`, not the empty trace the claim requires. -/
theorem c8_counterexample :
    (MSInterface.disconnect (MSInterface.disconnect sConn).1).2 ≠ [] := by
  decide

/-- Claim C8 amended: `disconnect` never raises (close errors are
swallowed) and is a no-op when no connection handle is stored; calling
it twice in a row leaves the manager state unchanged the second time,
but — because the first call does not clear the stored handle — the
second call still performs one driver close call on the retained
handle, rather than being a complete no-op. -/
theorem c8_disconnect_amended (s : MSInterface) :
    (s.connection = none → MSInterface.disconnect s = (s, [])) ∧
    (MSInterface.disconnect (MSInterface.disconnect s).1).1 =
      (MSInterface.disconnect s).1 ∧
    (∀ h, s.connection = some h →
      (MSInterface.disconnect (MSInterface.disconnect s).1).2 = [DEvent.dClose h]) := by
  refine ⟨?_, ?_, ?_⟩
  · intro hn
    simp [MSInterface.disconnect, hn]
  · cases hc : s.connection with
    | none => simp [MSInterface.disconnect, hc]
    | some h0 => simp [MSInterface.disconnect, hc]
  · intro h hsome
    simp [MSInterface.disconnect, hsome]

theorem c8_disconnect_amended_witness :
    MSInterface.disconnect MSInterface.startState = (MSInterface.startState, []) :=
  (c8_disconnect_amended MSInterface.startState).1 rfl

/-- Claim C9: once the stored connection handle is non-null, every
operation preserves it identically — `connect` is a strict no-op,
`verify_connection` performs no driver call (it returns immediately, or
exits when the flag is latched), `execute_query` never performs an open
call, and `disconnect` / scoped exit keep the (now possibly closed)
handle — so after `disconnect` the manager still appears connected and
no new driver session is ever opened. -/
theorem c9_handle_retained (d : Driver) (s : MSInterface) (ch : Nat) (q : String)
    (hconn : s.connection = some ch) :
    MSInterface.connect d s = (s, []) ∧
    (MSInterface.verify_connection d s).2.1.connection = some ch ∧
    (MSInterface.verify_connection d s).2.2 = [] ∧
    (MSInterface.execute_query d s q).2.1.connection = some ch ∧
    (∀ n, DEvent.dOpen n ∉ (MSInterface.execute_query d s q).2.2) ∧
    (MSInterface.disconnect s).1.connection = some ch ∧
    (MSInterface.scope_exit s).1.connection = some ch := by
  have hvc : MSInterface.verify_connection d s =
      ((if s.connection_error then PyOutcome.exitCode 1 else PyOutcome.ok ()), s, []) := by
    cases herr : s.connection_error <;>
      simp [MSInterface.verify_connection, hconn, herr]
  refine ⟨by simp [MSInterface.connect, hconn], by simp [hvc, hconn], by simp [hvc], ?_, ?_, ?_, ?_⟩
  · cases herr : s.connection_error with
    | true => simp [MSInterface.execute_query, hvc, herr, hconn]
    | false =>
      cases hcur : s.cursor with
      | some cu =>
        cases hq : d.queryC q <;>
          simp [MSInterface.execute_query, hvc, herr, MSInterface.verify_cursor,
                hcur, hq, hconn]
      | none =>
        cases hcc : d.cursorC ch with
        | some cu =>
          cases hq : d.queryC q <;>
            simp [MSInterface.execute_query, hvc, herr, MSInterface.verify_cursor,
                  hcur, hconn, hcc, hq]
        | none =>
          simp [MSInterface.execute_query, hvc, herr, MSInterface.verify_cursor,
                hcur, hconn, hcc]
  · intro n
    cases herr : s.connection_error with
    | true => simp [MSInterface.execute_query, hvc, herr]
    | false =>
      cases hcur : s.cursor with
      | some cu =>
        cases hq : d.queryC q <;>
          simp [MSInterface.execute_query, hvc, herr, MSInterface.verify_cursor,
                hcur, hq, hconn]
      | none =>
        cases hcc : d.cursorC ch with
        | some cu =>
          cases hq : d.queryC q <;>
            simp [MSInterface.execute_query, hvc, herr, MSInterface.verify_cursor,
                  hcur, hconn, hcc, hq]
        | none =>
          simp [MSInterface.execute_query, hvc, herr, MSInterface.verify_cursor,
                hcur, hconn, hcc]
  · simp [MSInterface.disconnect, hconn]
  · simp [MSInterface.scope_exit, MSInterface.disconnect, hconn]

theorem c9_handle_retained_witness :
    MSInterface.connect dOk sConn = (sConn, []) :=
  (c9_handle_retained dOk sConn 7 "SELECT 1" rfl).1

/-- Claim C3 counterexample: construction with an always-failing driver
latches `connection_error`; a subsequent direct call to `connect`
(which never checks the flag) still performs driver open attempts —
four of them here — refuting "no subsequent call to any operation of
the manager (including a direct call to connect()) performs a driver
open attempt". -/
theorem c3_counterexample :
    (MSInterface.construct dFail).1.connection_error = true ∧
    (MSInterface.connect dFail (MSInterface.construct dFail).1).2.length = 4 := by
  decide

/-- Claim C3 amended: once `connection_error` is latched it is never
reset to `false` by any operation, and no call to `verify_connection`
or `execute_query` performs any driver call (both exit the process
first); a direct call to `connect`, however, is not guarded by the
flag and does perform driver open attempts when no connection is
stored. -/
theorem c3_latched_amended (d : Driver) (s : MSInterface) (q : String)
    (herr : s.connection_error = true) :
    (MSInterface.verify_connection d s).2.2 = [] ∧
    (MSInterface.execute_query d s q).2.2 = [] ∧
    (MSInterface.connect d s).1.connection_error = true ∧
    (MSInterface.verify_connection d s).2.1.connection_error = true ∧
    (MSInterface.verify_cursor d s).2.1.connection_error = true ∧
    (MSInterface.execute_query d s q).2.1.connection_error = true ∧
    (MSInterface.disconnect s).1.connection_error = true ∧
    (MSInterface.scope_exit s).1.connection_error = true := by
  have h5 := latched_exit d s q herr
  refine ⟨by rw [h5.1], by rw [h5.2], ?_, by rw [h5.1]; exact herr, ?_,
          by rw [h5.2]; exact herr, ?_, ?_⟩
  · cases hc : s.connection <;> simp [MSInterface.connect, hc, herr]
  · cases hcur : s.cursor with
    | some cu => simp [MSInterface.verify_cursor, hcur, herr]
    | none =>
      cases hc : s.connection with
      | none => simp [MSInterface.verify_cursor, hcur, hc, herr]
      | some ch =>
        cases hcc : d.cursorC ch <;>
          simp [MSInterface.verify_cursor, hcur, hc, hcc, herr]
  · cases hc : s.connection <;> simp [MSInterface.disconnect, hc, herr]
  · cases hc : s.connection <;>
      simp [MSInterface.scope_exit, MSInterface.disconnect, hc, herr]

theorem c3_latched_amended_witness :
    (MSInterface.verify_connection dOk (MSInterface.construct dFail).1).2.2 = [] :=
  (c3_latched_amended dOk (MSInterface.construct dFail).1 "SELECT 1" rfl).1

/-- When the retry loop reports that it latched the error flag, it did
not produce a connection. -/
theorem connectLoop_errNone (d : Driver) :
    ∀ fuel retry, (connectLoop d retry fuel).2.1 = true →
      (connectLoop d retry fuel).1 = none := by
  intro fuel
  induction fuel with
  | zero =>
    intro retry h
    simp [connectLoop] at h
  | succ f ih =>
    intro retry h
    by_cases hr : retry = MAX_CONNECTION_RETRIES
    · simp [connectLoop, hr]
    · cases hop : d.openC retry with
      | some hh => simp [connectLoop, if_neg hr, hop] at h
      | none =>
        simp only [connectLoop, if_neg hr, hop] at h ⊢
        exact ih (retry + 1) h

/-- The cursor-ownership half of the C4 invariant: a cursor handle is
stored only when a connection handle is stored. -/
def CursorOwned (s : MSInterface) : Prop :=
  s.cursor.isSome → s.connection.isSome

/-- The full C4 invariant: a latched flag means no stored handles, and
a cursor handle is stored only when a connection handle is stored. -/
def HandleInv (s : MSInterface) : Prop :=
  (s.connection_error = true → s.connection = none ∧ s.cursor = none) ∧
  CursorOwned s

/-- State shape of `connect`: either a no-op, or the loop result is
written into an unconnected state. -/
theorem connect_state (d : Driver) (s : MSInterface) :
    (MSInterface.connect d s).1 = s ∨
    (s.connection = none ∧
      (MSInterface.connect d s).1 =
        { s with connection := (connectLoop d 1 MAX_CONNECTION_RETRIES).1,
                 connection_error :=
                   s.connection_error || (connectLoop d 1 MAX_CONNECTION_RETRIES).2.1,
                 connClosed := false }) := by
  unfold MSInterface.connect
  cases hc : s.connection with
  | some ch => exact Or.inl rfl
  | none => exact Or.inr ⟨rfl, rfl⟩

/-- State shape of `verify_connection`: either a no-op on the state, or
it delegates to `connect` from an unlatched state. -/
theorem verify_connection_state (d : Driver) (s : MSInterface) :
    (MSInterface.verify_connection d s).2.1 = s ∨
    (s.connection_error = false ∧
      (MSInterface.verify_connection d s).2.1 = (MSInterface.connect d s).1) := by
  unfold MSInterface.verify_connection
  cases herr : s.connection_error with
  | true => exact Or.inl rfl
  | false =>
    cases hc : s.connection with
    | none => exact Or.inr ⟨rfl, rfl⟩
    | some ch => exact Or.inl rfl

/-- State shape of `verify_cursor`: either a no-op on the state, or a
fresh cursor obtained from the stored connection is written. -/
theorem verify_cursor_state (d : Driver) (s : MSInterface) :
    (MSInterface.verify_cursor d s).2.1 = s ∨
    (∃ ch cu, s.connection = some ch ∧ d.cursorC ch = some cu ∧
      (MSInterface.verify_cursor d s).2.1 = { s with cursor := some cu }) := by
  unfold MSInterface.verify_cursor
  cases hcu : s.cursor with
  | some cu => exact Or.inl rfl
  | none =>
    dsimp only
    cases hc : s.connection with
    | none => exact Or.inl rfl
    | some ch =>
      dsimp only
      cases hcc : d.cursorC ch with
      | none => exact Or.inl rfl
      | some cu => exact Or.inr ⟨ch, cu, rfl, hcc, rfl⟩

/-- State shape of `execute_query`: the final state is the one left by
`verify_connection`, or the one left by `verify_cursor` after it; the
query step itself never changes the state. -/
theorem execute_query_state (d : Driver) (s : MSInterface) (q : String) :
    (MSInterface.execute_query d s q).2.1 = (MSInterface.verify_connection d s).2.1 ∨
    (MSInterface.execute_query d s q).2.1 =
      (MSInterface.verify_cursor d (MSInterface.verify_connection d s).2.1).2.1 := by
  unfold MSInterface.execute_query
  cases hvc : MSInterface.verify_connection d s with
  | mk o1 p1 =>
    cases p1 with
    | mk s1 t1 =>
      cases o1 with
      | ok a =>
        dsimp only
        cases hvcu : MSInterface.verify_cursor d s1 with
        | mk o2 p2 =>
          cases p2 with
          | mk s2 t2 =>
            cases o2 with
            | ok b =>
              dsimp only
              cases hq : d.queryC q with
              | some rows => exact Or.inr rfl
              | none => exact Or.inr rfl
            | exitCode c => exact Or.inr rfl
            | raised e => exact Or.inr rfl
      | exitCode c => exact Or.inl rfl
      | raised e => exact Or.inl rfl

/-- State shape of `disconnect`: a no-op, or only `connClosed` set. -/
theorem disconnect_state (s : MSInterface) :
    (MSInterface.disconnect s).1 = s ∨
    (MSInterface.disconnect s).1 = { s with connClosed := true } := by
  unfold MSInterface.disconnect
  cases hc : s.connection with
  | none => exact Or.inl rfl
  | some ch => exact Or.inr rfl

theorem connect_cursorOwned (d : Driver) (s : MSInterface) (h : CursorOwned s) :
    CursorOwned (MSInterface.connect d s).1 := by
  rcases connect_state d s with he | ⟨hc, he⟩
  · rwa [he]
  · rw [he]
    unfold CursorOwned at h ⊢
    intro hcu
    have h2 : s.cursor.isSome = true := by simpa using hcu
    have h3 := h h2
    rw [hc] at h3
    simp at h3

theorem verify_connection_cursorOwned (d : Driver) (s : MSInterface)
    (h : CursorOwned s) :
    CursorOwned (MSInterface.verify_connection d s).2.1 := by
  rcases verify_connection_state d s with he | ⟨_, he⟩
  · rwa [he]
  · rw [he]
    exact connect_cursorOwned d s h

theorem verify_cursor_cursorOwned (d : Driver) (s : MSInterface)
    (h : CursorOwned s) :
    CursorOwned (MSInterface.verify_cursor d s).2.1 := by
  rcases verify_cursor_state d s with he | ⟨ch, cu, hc, hcc, he⟩
  · rwa [he]
  · rw [he]
    unfold CursorOwned
    intro _
    simp [hc]

theorem execute_query_cursorOwned (d : Driver) (s : MSInterface) (q : String)
    (h : CursorOwned s) : CursorOwned (MSInterface.execute_query d s q).2.1 := by
  rcases execute_query_state d s q with he | he
  · rw [he]
    exact verify_connection_cursorOwned d s h
  · rw [he]
    exact verify_cursor_cursorOwned d _ (verify_connection_cursorOwned d s h)

theorem disconnect_cursorOwned (s : MSInterface) (h : CursorOwned s) :
    CursorOwned (MSInterface.disconnect s).1 := by
  rcases disconnect_state s with he | he
  · rwa [he]
  · rw [he]
    unfold CursorOwned at h ⊢
    intro hcu
    have h2 : s.cursor.isSome = true := by simpa using hcu
    simpa using h h2

theorem scope_exit_cursorOwned (s : MSInterface) (h : CursorOwned s) :
    CursorOwned (MSInterface.scope_exit s).1 :=
  disconnect_cursorOwned s h

theorem startState_cursorOwned : CursorOwned MSInterface.startState := by
  intro h
  simp [MSInterface.startState] at h

/-- Every state reachable by any operation sequence (direct `connect`
calls included) stores a cursor handle only while a connection handle
is stored. -/
theorem reachable_cursorOwned (s : MSInterface) (hs : Reachable s) :
    CursorOwned s := by
  induction hs with
  | construct d => exact connect_cursorOwned d MSInterface.startState startState_cursorOwned
  | connectStep d hs ih => exact connect_cursorOwned _ _ ih
  | verifyConnStep d hs ih => exact verify_connection_cursorOwned _ _ ih
  | verifyCursorStep d hs ih => exact verify_cursor_cursorOwned _ _ ih
  | executeStep d q hs ih => exact execute_query_cursorOwned _ _ _ ih
  | disconnectStep hs ih => exact disconnect_cursorOwned _ ih
  | scopeExitStep hs ih => exact scope_exit_cursorOwned _ ih

theorem connect_handleInv (d : Driver) (s : MSInterface)
    (herr : s.connection_error = false) (h : CursorOwned s) :
    HandleInv (MSInterface.connect d s).1 := by
  rcases connect_state d s with he | ⟨hc, he⟩
  · rw [he]
    exact ⟨fun habs => absurd habs (by simp [herr]), h⟩
  · have hcn : s.cursor = none := by
      cases hcu : s.cursor with
      | none => rfl
      | some cu =>
        have h2 := h (by simp [hcu])
        rw [hc] at h2
        simp at h2
    rw [he]
    refine ⟨?_, ?_⟩
    · intro habs
      have habs2 : (connectLoop d 1 MAX_CONNECTION_RETRIES).2.1 = true := by
        simpa [herr] using habs
      refine ⟨?_, ?_⟩
      · show (connectLoop d 1 MAX_CONNECTION_RETRIES).1 = none
        exact connectLoop_errNone d MAX_CONNECTION_RETRIES 1 habs2
      · show s.cursor = none
        exact hcn
    · intro hcu2
      have h4 : s.cursor.isSome = true := by simpa using hcu2
      rw [hcn] at h4
      simp at h4

theorem verify_connection_handleInv (d : Driver) (s : MSInterface)
    (h : HandleInv s) :
    HandleInv (MSInterface.verify_connection d s).2.1 := by
  rcases verify_connection_state d s with he | ⟨herr, he⟩
  · rwa [he]
  · rw [he]
    exact connect_handleInv d s herr h.2

theorem verify_cursor_handleInv (d : Driver) (s : MSInterface)
    (h : HandleInv s) :
    HandleInv (MSInterface.verify_cursor d s).2.1 := by
  rcases verify_cursor_state d s with he | ⟨ch, cu, hc, hcc, he⟩
  · rwa [he]
  · rw [he]
    refine ⟨?_, ?_⟩
    · intro habs
      have habs2 : s.connection_error = true := by simpa using habs
      exact absurd (h.1 habs2).1 (by simp [hc])
    · intro _
      simp [CursorOwned, hc]

theorem execute_query_handleInv (d : Driver) (s : MSInterface) (q : String)
    (h : HandleInv s) : HandleInv (MSInterface.execute_query d s q).2.1 := by
  rcases execute_query_state d s q with he | he
  · rw [he]
    exact verify_connection_handleInv d s h
  · rw [he]
    exact verify_cursor_handleInv d _ (verify_connection_handleInv d s h)

theorem disconnect_handleInv (s : MSInterface) (h : HandleInv s) :
    HandleInv (MSInterface.disconnect s).1 := by
  rcases disconnect_state s with he | he
  · rwa [he]
  · rw [he]
    refine ⟨?_, ?_⟩
    · intro habs
      have habs2 : s.connection_error = true := by simpa using habs
      have h3 := h.1 habs2
      exact ⟨by simpa using h3.1, by simpa using h3.2⟩
    · intro hcu
      have h4 : s.cursor.isSome = true := by simpa using hcu
      have h5 := h.2 h4
      simpa using h5

theorem scope_exit_handleInv (s : MSInterface) (h : HandleInv s) :
    HandleInv (MSInterface.scope_exit s).1 :=
  disconnect_handleInv s h

/-- Every state reachable without direct `connect` calls satisfies the
C4 invariant. -/
theorem reachableNC_handleInv (s : MSInterface) (hs : ReachableNC s) :
    HandleInv s := by
  induction hs with
  | construct d => exact connect_handleInv d MSInterface.startState rfl startState_cursorOwned
  | verifyConnStep d hs ih => exact verify_connection_handleInv _ _ ih
  | verifyCursorStep d hs ih => exact verify_cursor_handleInv _ _ ih
  | executeStep d q hs ih => exact execute_query_handleInv _ _ _ ih
  | disconnectStep hs ih => exact disconnect_handleInv _ ih
  | scopeExitStep hs ih => exact scope_exit_handleInv _ ih

/-- Claim C4 counterexample: the state reached by constructing with an
always-failing driver (which latches the flag) and then calling
`connect` directly with a driver that now succeeds is reachable, has
`connection_error = true`, and stores a live connection handle —
refuting the invariant as stated. -/
theorem c4_counterexample :
    Reachable (MSInterface.connect dOk (MSInterface.construct dFail).1).1 ∧
    (MSInterface.connect dOk (MSInterface.construct dFail).1).1.connection_error = true ∧
    (MSInterface.connect dOk (MSInterface.construct dFail).1).1.connection = some 7 :=
  ⟨Reachable.connectStep dOk (Reachable.construct dFail), by decide, by decide⟩

/-- Claim C4 amended: in every state reachable without a direct
`connect` call after construction, a latched `connection_error` implies
that no connection handle and no cursor handle are stored; and in every
reachable state (direct `connect` calls included) a cursor handle is
present only when a connection handle is present — the connection
attribute is never cleared, so the cursor never outlives it. -/
theorem c4_invariant_amended (s : MSInterface) :
    (ReachableNC s → s.connection_error = true →
      s.connection = none ∧ s.cursor = none) ∧
    (Reachable s → s.cursor.isSome → s.connection.isSome) :=
  ⟨fun hs herr => (reachableNC_handleInv s hs).1 herr,
   fun hs => reachable_cursorOwned s hs⟩

theorem c4_invariant_amended_witness :
    (MSInterface.construct dFail).1.connection = none ∧
    (MSInterface.construct dFail).1.cursor = none :=
  (c4_invariant_amended (MSInterface.construct dFail).1).1
    (ReachableNC.construct dFail) rfl
